import Mathlib

/-!
Shallow embedding of the omni-migration-assistant core in Lean 4.

Source files embedded:
- `src/unnamed/part_000` (`lib/omni-api.ts`): zod schemas `DashboardExportResponse`
  and `DashboardImportRequest`, class `OmniAPI` with `fetch`, `exportDashboard`,
  `importDashboard`.
- `src/src/app/page.tsx` (`DashboardMigration` component): `handleMigration`
  orchestration, the button enablement guard, configuration `OMNI_CONFIG` and
  `validateOmniConfig`.

Modelling choices:
- JSON values are an inductive `Json`.  The platform primitive `response.json()`
  is modelled by storing the pre-parsed body as `Option Json` in `HttpResponse`
  (`none` = body is not valid JSON, so `json()` throws a `SyntaxError`).
- Thrown JavaScript errors are modelled as `Except String` where the `String`
  is the error's `.message` (the orchestrator only ever observes `err.message`).
- `await` on a network call is modelled by passing the call's outcome in
  explicitly (an oracle); the HTTP request that the code issues for that call is
  computed from the code and collected in a trace.
-/

/-- JSON values, as produced by `JSON.parse` / consumed by `JSON.stringify`. -/
inductive Json where
  | null : Json
  | bool (b : Bool) : Json
  | num (n : Int) : Json
  | str (s : String) : Json
  | arr (elems : List Json) : Json
  | obj (fields : List (String × Json)) : Json
deriving Repr

/-- Message of the TypeError thrown by a property access on JavaScript
`null`. -/
def typeErrorMessage : String :=
  "TypeError: Cannot read properties of null"

/-- Property access `j.k` on a parsed JSON value: on `null` it throws a
TypeError (JavaScript `null` has no properties); on an object it evaluates to
the field's value — `none` (JavaScript `undefined`) when the field is absent,
with later duplicate keys overwriting earlier ones, as in `JSON.parse`; on any
other value (string, number, boolean, array) it evaluates to `undefined`. -/
def Json.getProp : Json → String → Except String (Option Json)
  | .null, _ => Except.error typeErrorMessage
  | .obj fields, k =>
      Except.ok (fields.foldl (fun acc p => if p.1 = k then some p.2 else acc) none)
  | _, _ => Except.ok none

/-- JavaScript truthiness of a possibly-`undefined` value, as used by `||`:
`undefined`, `null`, `false`, `0`, and `""` are falsy. -/
def jsTruthy : Option Json → Bool
  | none => false
  | some .null => false
  | some (.bool b) => b
  | some (.num n) => n != 0
  | some (.str s) => !s.isEmpty
  | some (.arr _) => true
  | some (.obj _) => true

/-- JavaScript string coercion of a value, as used by template interpolation. -/
def jsDisplay : Json → String
  | .null => "null"
  | .bool b => if b then "true" else "false"
  | .num n => toString n
  | .str s => s
  | .arr _ => ""
  | .obj _ => "[object Object]"

/-- An HTTP request as assembled by `OmniAPI.fetch`. -/
structure HttpRequest where
  method : String
  url : String
  headers : List (String × String)
  body : Option Json
deriving Repr

/-- An HTTP response as observed by `OmniAPI.fetch`: the `ok` flag, the
`statusText`, and the body as seen through `response.json()` (`none` means the
body is not valid JSON and `json()` throws). -/
structure HttpResponse where
  ok : Bool
  statusText : String
  jsonBody : Option Json
deriving Repr

/-- Message of the generic `SyntaxError` thrown by `response.json()` on a body
that is not valid JSON. -/
def jsonParseErrorMessage : String :=
  "Unexpected token in JSON"

/-- JavaScript object update `o[k] = v` (and the effect of a later key in an
object literal): overwrites the value of an existing key in place, otherwise
appends the key. -/
def objSet : List (String × String) → String → String → List (String × String)
  | [], k, v => [(k, v)]
  | p :: rest, k, v =>
      if p.1 = k then (k, v) :: rest else p :: objSet rest k v

/-- Property lookup in a header object (keys are unique by construction, so the
first match is the binding). -/
def headerGet : List (String × String) → String → Option String
  | [], _ => none
  | p :: rest, k => if p.1 = k then some p.2 else headerGet rest k

/-- The value the last entry with key `k` carries in a raw (possibly
duplicated) header list — the value that "last write wins" merge semantics
keeps. -/
def lastHeaderValue : List (String × String) → String → Option String
  | [], _ => none
  | p :: rest, k =>
      match lastHeaderValue rest k with
      | some v => some v
      | none => if p.1 = k then some p.2 else none

/-- The two headers `OmniAPI.fetch` always supplies, in literal order. -/
def mandatoryHeaders (token : String) : List (String × String) :=
  objSet (objSet [] "Authorization" ("Bearer " ++ token)) "Content-Type" "application/json"

/-- The header object of the literal
`{ 'Authorization': ..., 'Content-Type': ..., ...options.headers }`:
the two mandatory headers, then the caller-supplied headers spread after them
(later spreads overwrite, per JavaScript object-spread semantics). -/
def buildHeaders (token : String) (callerHeaders : List (String × String)) :
    List (String × String) :=
  callerHeaders.foldl (fun o p => objSet o p.1 p.2) (mandatoryHeaders token)

/-- The `OmniAPI` class: one base URL plus bearer token, stored unvalidated. -/
structure OmniAPI where
  baseUrl : String
  token : String
deriving Repr

/-- The request `OmniAPI.fetch` issues for given endpoint, method, caller
headers and body: URL is `baseUrl` ++ `endpoint` verbatim, headers are the
merged header object. -/
def OmniAPI.fetchRequest (api : OmniAPI) (endpoint : String) (method : String)
    (callerHeaders : List (String × String)) (body : Option Json) : HttpRequest :=
  { method := method
    url := api.baseUrl ++ endpoint
    headers := buildHeaders api.token callerHeaders
    body := body }

/-- JavaScript string coercion of a possibly-`undefined` value. -/
def jsDisplayOpt : Option Json → String
  | none => "undefined"
  | some v => jsDisplay v

/-- Evaluation of `error.detail || response.statusText` followed by string
coercion: the property access throws a TypeError when `error` is `null`;
otherwise the result is the coerced `detail` value when it is truthy, else the
raw status text. -/
def detailOrStatus (err : Json) (statusText : String) : Except String String :=
  match err.getProp "detail" with
  | Except.error msg => Except.error msg
  | Except.ok d => Except.ok (if jsTruthy d then jsDisplayOpt d else statusText)

/-- Outcome of `OmniAPI.fetch` on a given response.
Success path: `response.ok` → return `response.json()` (throws a `SyntaxError`
if the body is not valid JSON).  Failure path: parse the body as JSON (throws a
`SyntaxError` if it is not), then evaluate `error.detail` (throws a TypeError
when the parsed body is `null`), and throw
`Error("Omni API Error: " + (error.detail || response.statusText))`. -/
def fetchResult (resp : HttpResponse) : Except String Json :=
  if resp.ok then
    match resp.jsonBody with
    | some j => Except.ok j
    | none => Except.error jsonParseErrorMessage
  else
    match resp.jsonBody with
    | some err =>
        match detailOrStatus err resp.statusText with
        | Except.error msg => Except.error msg
        | Except.ok s => Except.error ("Omni API Error: " ++ s)
    | none => Except.error jsonParseErrorMessage

/-- Model of `OmniAPI.fetch` as a whole: the (single) HTTP request it issues, paired
with the result computed from the response the network returned for it. -/
def OmniAPI.fetch (api : OmniAPI) (endpoint : String) (method : String)
    (callerHeaders : List (String × String)) (body : Option Json)
    (resp : HttpResponse) : List HttpRequest × Except String Json :=
  ([api.fetchRequest endpoint method callerHeaders body], fetchResult resp)

/-- The runtime record behind the `DashboardExportResponse` zod schema: the
three opaque payload fields plus the export-format version string. -/
structure DashboardExportResponse where
  dashboard : Json
  document : Json
  exportVersion : String
  workbookModel : Json
deriving Repr

/-- The runtime record behind the `DashboardImportRequest` zod schema.  The
schema constrains `baseModelId` to a UUID and `exportVersion` to the literal
`"0.1"`, but the record itself (what is passed at runtime) carries arbitrary
strings in those fields. -/
structure DashboardImportRequest where
  baseModelId : String
  dashboard : Json
  identifier : Option String
  folderPath : Option String
  document : Json
  workbookModel : Json
  exportVersion : String
deriving Repr

/-- Hexadecimal digit test, for the UUID format check. -/
def isHexDigit (c : Char) : Bool :=
  c.isDigit || ('a' ≤ c && c ≤ 'f') || ('A' ≤ c && c ≤ 'F')

/-- Split a character list on the hyphen character. -/
def splitOnDash : List Char → List (List Char)
  | [] => [[]]
  | c :: rest =>
      let r := splitOnDash rest
      if c == '-' then [] :: r
      else
        match r with
        | g :: gs => (c :: g) :: gs
        | [] => [[c]]

/-- UUID shape check modelling `z.string().uuid()` from the
`DashboardImportRequest` schema: five hyphen-separated hexadecimal groups of
lengths 8, 4, 4, 4 and 12. -/
def isUuid (s : String) : Bool :=
  match splitOnDash s.data with
  | [a, b, c, d, e] =>
      a.length == 8 && b.length == 4 && c.length == 4 && d.length == 4 && e.length == 12
        && a.all isHexDigit && b.all isHexDigit && c.all isHexDigit && d.all isHexDigit
        && e.all isHexDigit
  | _ => false

/-- Runtime validation that the `DashboardImportRequest` zod schema would
perform if it were invoked on a record: `baseModelId` must be a UUID and
`exportVersion` must be the literal `"0.1"` (the `z.any()` and optional string
fields accept the record's fields unconditionally). -/
def importRequestCheck (d : DashboardImportRequest) : Bool :=
  isUuid d.baseModelId && d.exportVersion == "0.1"

/-- Serialization `JSON.stringify` of an import-request record (optional fields that are
absent, i.e. `undefined`, are omitted). -/
def jsonOfImportRequest (d : DashboardImportRequest) : Json :=
  Json.obj
    ([("baseModelId", Json.str d.baseModelId), ("dashboard", d.dashboard)]
      ++ (match d.identifier with
          | some i => [("identifier", Json.str i)]
          | none => [])
      ++ (match d.folderPath with
          | some f => [("folderPath", Json.str f)]
          | none => [])
      ++ [("document", d.document), ("workbookModel", d.workbookModel),
          ("exportVersion", Json.str d.exportVersion)])

/-- The GET request issued by `OmniAPI.exportDashboard dashboardId`. -/
def OmniAPI.exportDashboardRequest (api : OmniAPI) (dashboardId : String) : HttpRequest :=
  api.fetchRequest ("/api/unstable/documents/" ++ dashboardId ++ "/export") "GET" [] none

/-- The POST request issued by `OmniAPI.importDashboard data`. -/
def OmniAPI.importDashboardRequest (api : OmniAPI) (data : DashboardImportRequest) : HttpRequest :=
  api.fetchRequest "/api/unstable/documents/import" "POST" [] (some (jsonOfImportRequest data))

/-- Operation `OmniAPI.exportDashboard`: delegates to `fetch` with the export endpoint;
no option object, so method defaults to GET and there is no body. -/
def OmniAPI.exportDashboard (api : OmniAPI) (dashboardId : String)
    (resp : HttpResponse) : List HttpRequest × Except String Json :=
  api.fetch ("/api/unstable/documents/" ++ dashboardId ++ "/export") "GET" [] none resp

/-- Operation `OmniAPI.importDashboard`: delegates to `fetch` with method POST and the
stringified request as body.  Note: the function body performs no runtime
validation of `data` — the zod schema is never invoked. -/
def OmniAPI.importDashboard (api : OmniAPI) (data : DashboardImportRequest)
    (resp : HttpResponse) : List HttpRequest × Except String Json :=
  api.fetch "/api/unstable/documents/import" "POST" [] (some (jsonOfImportRequest data)) resp

/-- A concrete failing response whose JSON body has `detail = "boom"`. -/
def respDetailBoom : HttpResponse where
  ok := false
  statusText := "Bad Request"
  jsonBody := some (Json.obj [("detail", Json.str "boom")])

/-- A concrete failing response whose JSON body has `detail` equal to the empty
string. -/
def respDetailEmpty : HttpResponse where
  ok := false
  statusText := "Bad Request"
  jsonBody := some (Json.obj [("detail", Json.str "")])

/-- A concrete failing response whose body is not valid JSON. -/
def respNotJson : HttpResponse where
  ok := false
  statusText := "Internal Server Error"
  jsonBody := none

/-- One environment entry of `OMNI_CONFIG`. -/
structure OmniEnvironment where
  baseUrl : String
  token : String
deriving Repr

/-- The `OMNI_CONFIG` shape: source and target environment settings (each read
from an environment variable, defaulting to the empty string when unset). -/
structure OmniConfig where
  source : OmniEnvironment
  target : OmniEnvironment
deriving Repr

/-- The `missingVars` list built by `validateOmniConfig`: the environment
variable name of each empty setting, in the order the code checks them. -/
def missingVars (c : OmniConfig) : List String :=
  (if c.source.baseUrl.isEmpty then ["NEXT_PUBLIC_SOURCE_OMNI_URL"] else [])
    ++ (if c.source.token.isEmpty then ["SOURCE_OMNI_API_TOKEN"] else [])
    ++ (if c.target.baseUrl.isEmpty then ["NEXT_PUBLIC_TARGET_OMNI_URL"] else [])
    ++ (if c.target.token.isEmpty then ["TARGET_OMNI_API_TOKEN"] else [])

/-- Function `validateOmniConfig`: throws an error listing the missing environment
variables when any setting is empty, otherwise returns `true`. -/
def validateOmniConfig (c : OmniConfig) : Except String Bool :=
  let missing := missingVars c
  if missing.length > 0 then
    Except.error ("Missing required environment variables: " ++ String.intercalate ", " missing)
  else
    Except.ok true

/-- The `importResult` shape `handleMigration` consumes:
`dashboard.dashboardId`, `miniUuidMap` and `workbook` fields. -/
structure ImportResultDashboard where
  dashboardId : String
deriving Repr

/-- The `workbook` part of an import result. -/
structure ImportResultWorkbook where
  id : String
  identifier : String
  name : String
deriving Repr

/-- Result returned by a successful `importDashboard` call, as typed in the
source. -/
structure ImportResult where
  dashboard : ImportResultDashboard
  miniUuidMap : List (String × String)
  workbook : ImportResultWorkbook
deriving Repr

/-- The outcomes of the two network calls as observed by `handleMigration`
after each `await`: either the thrown error's message, or the parsed response
(the code reads each response through its declared type without further
runtime validation). -/
structure NetworkOracle where
  exportResult : Except String DashboardExportResponse
  importResult : Except String ImportResult
deriving Repr

/-- The import-request object literal `handleMigration` builds from the export
data and the target model id: the three payload fields are passed through and
`exportVersion` is the string literal `'0.1'` (the bundle's own `exportVersion`
is not consulted); `identifier` and `folderPath` are not supplied. -/
def buildImportRequest (exportData : DashboardExportResponse) (targetModelId : String) :
    DashboardImportRequest where
  baseModelId := targetModelId
  dashboard := exportData.dashboard
  identifier := none
  folderPath := none
  document := exportData.document
  workbookModel := exportData.workbookModel
  exportVersion := "0.1"

/-- Final component state after a migration run: the requests issued on the
network, and the final `status` and `error` strings. -/
structure MigrationRun where
  requests : List HttpRequest
  status : String
  error : String
deriving Repr

/-- Handler `handleMigration`: builds one `OmniAPI` per environment, awaits
`exportDashboard` on the source, then awaits `importDashboard` on the target
with the pass-through request, and sets the final status; any thrown error is
caught, its message stored in `error`, and status set to `'Migration failed'`. -/
def handleMigration (cfg : OmniConfig) (sourceDashboardId targetModelId : String)
    (net : NetworkOracle) : MigrationRun :=
  let sourceApi : OmniAPI := { baseUrl := cfg.source.baseUrl, token := cfg.source.token }
  let targetApi : OmniAPI := { baseUrl := cfg.target.baseUrl, token := cfg.target.token }
  let exportReq := sourceApi.exportDashboardRequest sourceDashboardId
  match net.exportResult with
  | Except.error msg =>
      { requests := [exportReq], status := "Migration failed", error := msg }
  | Except.ok exportData =>
      let importReq := targetApi.importDashboardRequest (buildImportRequest exportData targetModelId)
      match net.importResult with
      | Except.error msg =>
          { requests := [exportReq, importReq], status := "Migration failed", error := msg }
      | Except.ok importResult =>
          { requests := [exportReq, importReq]
            status := "Migration completed successfully! New dashboard ID: "
              ++ importResult.dashboard.dashboardId
            error := "" }

/-- The `disabled` attribute of the Start Migration button:
`!sourceDashboardId || !targetModelId` (JavaScript string falsiness: only the
empty string is falsy). -/
def migrationButtonDisabled (sourceDashboardId targetModelId : String) : Bool :=
  sourceDashboardId.isEmpty || targetModelId.isEmpty

/-- The migration can be started exactly when the button is not disabled. -/
def migrationEnabled (sourceDashboardId targetModelId : String) : Bool :=
  !(migrationButtonDisabled sourceDashboardId targetModelId)

/-- What the `DashboardMigration` component renders: either the
configuration-error panel (which contains no migration button) or the
migration form with its button's `disabled` flag. -/
inductive RenderedView where
  | configErrorPanel (message : String) : RenderedView
  | migrationForm (buttonDisabled : Bool) : RenderedView
deriving Repr

/-- Component `DashboardMigration` rendering: when `validateOmniConfig` throws, the
caught message is stored in `configError` and the early-return error panel is
rendered; otherwise the form with the Start Migration button is rendered. -/
def renderDashboardMigration (cfg : OmniConfig) (sourceDashboardId targetModelId : String) :
    RenderedView :=
  match validateOmniConfig cfg with
  | Except.error msg => RenderedView.configErrorPanel msg
  | Except.ok _ =>
      RenderedView.migrationForm (migrationButtonDisabled sourceDashboardId targetModelId)

/-- Whether a rendered view contains the Start Migration button (the only
element wired to `handleMigration`). -/
def viewHasMigrationButton : RenderedView → Bool
  | RenderedView.configErrorPanel _ => false
  | RenderedView.migrationForm _ => true

/-- A concrete client instance. -/
def apiEx : OmniAPI where
  baseUrl := "https://source.example.com"
  token := "tok"

/-- A concrete well-formed UUID string. -/
def uuidEx : String := "11111111-1111-1111-1111-111111111111"

/-- A concrete opaque dashboard payload. -/
def payloadEx : Json := Json.obj [("title", Json.str "My Dash")]

/-- A concrete export bundle carrying the observed version literal `"0.1"`. -/
def bundleEx : DashboardExportResponse where
  dashboard := payloadEx
  document := Json.obj []
  exportVersion := "0.1"
  workbookModel := Json.null

/-- A concrete export bundle whose version is `"0.2"`, not the literal that
the import schema expects. -/
def bundleV02 : DashboardExportResponse where
  dashboard := payloadEx
  document := Json.obj []
  exportVersion := "0.2"
  workbookModel := Json.null

/-- A concrete import-request record whose `exportVersion` is `"0.2"`. -/
def importReqV02 : DashboardImportRequest where
  baseModelId := "11111111-1111-1111-1111-111111111111"
  dashboard := payloadEx
  identifier := none
  folderPath := none
  document := Json.obj []
  workbookModel := Json.null
  exportVersion := "0.2"

/-- A concrete successful response with an empty JSON object body. -/
def respOkEmpty : HttpResponse where
  ok := true
  statusText := "OK"
  jsonBody := some (Json.obj [])

/-- A concrete import result. -/
def importResultEx : ImportResult where
  dashboard := { dashboardId := "dash_new" }
  miniUuidMap := []
  workbook := { id := "w1", identifier := "wb", name := "WB" }

/-- A concrete fully-populated configuration. -/
def cfgEx : OmniConfig where
  source := { baseUrl := "https://source.example.com", token := "stok" }
  target := { baseUrl := "https://target.example.com", token := "ttok" }

/-- A concrete configuration with two settings missing (empty). -/
def cfgMissingEx : OmniConfig where
  source := { baseUrl := "", token := "stok" }
  target := { baseUrl := "https://target.example.com", token := "" }

/-- A concrete oracle on which both network calls succeed. -/
def netOkEx : NetworkOracle where
  exportResult := Except.ok bundleEx
  importResult := Except.ok importResultEx

/-- A concrete oracle on which the export call throws with message `"boom"`. -/
def netExportFailEx : NetworkOracle where
  exportResult := Except.error "boom"
  importResult := Except.ok importResultEx


/-! Helper lemmas (shared; not tied to a single claim). -/

/-- Looking a key up after a JavaScript-style object update sees the new value
at the updated key and is unchanged elsewhere. -/
theorem headerGet_objSet (o : List (String × String)) (k v k' : String) :
    headerGet (objSet o k v) k' = if k' = k then some v else headerGet o k' := by
  induction o with
  | nil =>
      by_cases h : k' = k
      · simp [objSet, headerGet, h]
      · have hk : ¬ k = k' := fun he => h he.symm
        simp [objSet, headerGet, h, hk]
  | cons p rest ih =>
      by_cases hpk : p.1 = k
      · by_cases h : k' = k
        · simp [objSet, headerGet, hpk, h]
        · have hk : ¬ k = k' := fun he => h he.symm
          have hpk' : ¬ p.1 = k' := fun he => h ((hpk.symm.trans he).symm)
          simp [objSet, headerGet, hpk, h, hk, hpk']
      · by_cases hpk' : p.1 = k'
        · have h : ¬ k' = k := fun he => hpk (hpk'.trans he)
          simp [objSet, headerGet, hpk, hpk', h]
        · simp [objSet, headerGet, hpk, hpk', ih]

/-- Folding JavaScript-style updates over an accumulator realizes last-write-
wins lookup semantics. -/
theorem headerGet_foldl_objSet (caller : List (String × String))
    (o : List (String × String)) (k : String) :
    headerGet (caller.foldl (fun acc p => objSet acc p.1 p.2) o) k
      = match lastHeaderValue caller k with
        | some v => some v
        | none => headerGet o k := by
  induction caller generalizing o with
  | nil => simp [lastHeaderValue]
  | cons p rest ih =>
      simp only [List.foldl_cons, lastHeaderValue]
      rw [ih]
      cases hrest : lastHeaderValue rest k with
      | some v => simp
      | none =>
          rw [headerGet_objSet]
          by_cases h : k = p.1
          · simp [h]
          · have hne : ¬ p.1 = k := fun he => h he.symm
            rw [if_neg h, if_neg hne]

/-! Claim theorems. -/

/-- Claim C3 (confirmed): for every export bundle `B` and UUID-shaped target
model id `M`, the import request the orchestrator constructs carries `B`'s
`dashboard`, `document` and `workbookModel` fields unchanged. -/
theorem importRequest_passthrough (B : DashboardExportResponse) (M : String)
    (_hM : isUuid M = true) :
    (buildImportRequest B M).dashboard = B.dashboard
    ∧ (buildImportRequest B M).document = B.document
    ∧ (buildImportRequest B M).workbookModel = B.workbookModel := by
  exact ⟨rfl, rfl, rfl⟩

/-- Witness for C3 at a concrete bundle and the all-ones UUID. -/
theorem importRequest_passthrough_witness :
    isUuid uuidEx = true
    ∧ (buildImportRequest bundleEx uuidEx).dashboard = bundleEx.dashboard
    ∧ (buildImportRequest bundleEx uuidEx).document = bundleEx.document
    ∧ (buildImportRequest bundleEx uuidEx).workbookModel = bundleEx.workbookModel := by
  refine ⟨by decide, ?_⟩
  exact (importRequest_passthrough bundleEx uuidEx (by decide))

/-- Claim C2, counterexample: a bundle whose `exportVersion` is `"0.2"` is
sent on with `exportVersion` `"0.1"` — the orchestrator does not attach the
bundle's version unmodified. -/
theorem importRequest_version_not_from_bundle :
    bundleV02.exportVersion = "0.2"
    ∧ (buildImportRequest bundleV02 uuidEx).exportVersion = "0.1"
    ∧ (buildImportRequest bundleV02 uuidEx).exportVersion ≠ bundleV02.exportVersion := by
  refine ⟨rfl, rfl, by decide⟩

/-- Claim C2 (amended): the orchestrator always sets the outgoing import
request's `exportVersion` to the string literal `"0.1"`, regardless of the
bundle; it therefore coincides with the bundle's version exactly when that
version is already `"0.1"`. -/
theorem importRequest_version_literal (B : DashboardExportResponse) (M : String) :
    (buildImportRequest B M).exportVersion = "0.1"
    ∧ ((buildImportRequest B M).exportVersion = B.exportVersion
        ↔ B.exportVersion = "0.1") := by
  refine ⟨rfl, ?_⟩
  simp [buildImportRequest, eq_comm]

/-- Claim C1, counterexample: `importDashboard` called with a request whose
`exportVersion` is `"0.2"` issues its HTTP POST anyway and, on a successful
response, succeeds — nothing is rejected before the network call and no
validation error is raised. -/
theorem importDashboard_bad_version_sends_request :
    importReqV02.exportVersion = "0.2"
    ∧ (OmniAPI.importDashboard apiEx importReqV02 respOkEmpty).1
        = [apiEx.importDashboardRequest importReqV02]
    ∧ (OmniAPI.importDashboard apiEx importReqV02 respOkEmpty).2
        = Except.ok (Json.obj []) := by
  refine ⟨rfl, rfl, rfl⟩

/-- Claim C1 (amended): `importDashboard` performs no runtime validation — for
every request it issues exactly one POST and returns whatever the fetch path
produces; the declared `DashboardImportRequest` schema, which would reject a
request whose `exportVersion` is not `"0.1"`, is never invoked at runtime. -/
theorem importDashboard_no_runtime_version_check (api : OmniAPI)
    (data : DashboardImportRequest) (resp : HttpResponse)
    (h : data.exportVersion ≠ "0.1") :
    (OmniAPI.importDashboard api data resp).1 = [api.importDashboardRequest data]
    ∧ (OmniAPI.importDashboard api data resp).2 = fetchResult resp
    ∧ importRequestCheck data = false := by
  refine ⟨rfl, rfl, ?_⟩
  simp [importRequestCheck, h]

/-- Witness for the amended C1 at a concrete request with version `"0.2"`. -/
theorem importDashboard_no_runtime_version_check_witness :
    (OmniAPI.importDashboard apiEx importReqV02 respOkEmpty).1
        = [apiEx.importDashboardRequest importReqV02]
    ∧ importRequestCheck importReqV02 = false := by
  have h := importDashboard_no_runtime_version_check apiEx importReqV02 respOkEmpty (by decide)
  exact ⟨h.1, h.2.2⟩

/-- Claim C4 (confirmed): on a run where both network calls succeed, the
orchestrator issues exactly the export GET followed by the import POST, and
finishes in the completed state surfacing the import result's
`dashboard.dashboardId`. -/
theorem migration_success_run (cfg : OmniConfig) (s t : String) (net : NetworkOracle)
    (e : DashboardExportResponse) (r : ImportResult)
    (hexp : net.exportResult = Except.ok e)
    (himp : net.importResult = Except.ok r) :
    (handleMigration cfg s t net).requests
      = [OmniAPI.exportDashboardRequest
           { baseUrl := cfg.source.baseUrl, token := cfg.source.token } s,
         OmniAPI.importDashboardRequest
           { baseUrl := cfg.target.baseUrl, token := cfg.target.token }
           (buildImportRequest e t)]
    ∧ (OmniAPI.exportDashboardRequest
         { baseUrl := cfg.source.baseUrl, token := cfg.source.token } s).method = "GET"
    ∧ (OmniAPI.importDashboardRequest
         { baseUrl := cfg.target.baseUrl, token := cfg.target.token }
         (buildImportRequest e t)).method = "POST"
    ∧ (handleMigration cfg s t net).status
      = "Migration completed successfully! New dashboard ID: " ++ r.dashboard.dashboardId
    ∧ (handleMigration cfg s t net).error = "" := by
  refine ⟨?_, rfl, rfl, ?_, ?_⟩ <;> simp [handleMigration, hexp, himp]

/-- Witness for C4 on the concrete all-success oracle. -/
theorem migration_success_run_witness :
    (handleMigration cfgEx "dash_123" uuidEx netOkEx).status
      = "Migration completed successfully! New dashboard ID: "
        ++ importResultEx.dashboard.dashboardId :=
  (migration_success_run cfgEx "dash_123" uuidEx netOkEx bundleEx importResultEx
    rfl rfl).2.2.2.1

/-- Claim C5 (confirmed): on a run where the export call throws, the only
request issued is the export GET (no POST is ever issued), and the run ends
failed with the thrown error's message stored verbatim. -/
theorem migration_export_failure_run (cfg : OmniConfig) (s t : String)
    (net : NetworkOracle) (msg : String)
    (h : net.exportResult = Except.error msg) :
    (handleMigration cfg s t net).requests
      = [OmniAPI.exportDashboardRequest
           { baseUrl := cfg.source.baseUrl, token := cfg.source.token } s]
    ∧ (∀ req ∈ (handleMigration cfg s t net).requests, req.method ≠ "POST")
    ∧ (handleMigration cfg s t net).status = "Migration failed"
    ∧ (handleMigration cfg s t net).error = msg := by
  refine ⟨?_, ?_, ?_, ?_⟩ <;>
    simp [handleMigration, h, OmniAPI.exportDashboardRequest, OmniAPI.fetchRequest]

/-- Witness for C5 on the concrete export-failure oracle. -/
theorem migration_export_failure_run_witness :
    (handleMigration cfgEx "dash_123" uuidEx netExportFailEx).requests
      = [OmniAPI.exportDashboardRequest
           { baseUrl := cfgEx.source.baseUrl, token := cfgEx.source.token } "dash_123"]
    ∧ (handleMigration cfgEx "dash_123" uuidEx netExportFailEx).status = "Migration failed"
    ∧ (handleMigration cfgEx "dash_123" uuidEx netExportFailEx).error = "boom" := by
  have h := migration_export_failure_run cfgEx "dash_123" uuidEx netExportFailEx "boom" rfl
  exact ⟨h.1, h.2.2.1, h.2.2.2⟩

/-- Claim C6, counterexample: a non-success response whose JSON body carries
the string field `detail = ""` does not produce the message
`"Omni API Error: "` the claim demands — the empty string is falsy, so the
code falls back to the HTTP status text. -/
theorem fetch_empty_detail_uses_status_text :
    respDetailEmpty.jsonBody
        = some (Json.obj [("detail", Json.str "")])
    ∧ fetchResult respDetailEmpty = Except.error "Omni API Error: Bad Request"
    ∧ fetchResult respDetailEmpty ≠ Except.error ("Omni API Error: " ++ "") := by
  refine ⟨rfl, rfl, ?_⟩
  intro hcontra
  have : "Omni API Error: Bad Request" = "Omni API Error: " ++ "" :=
    Except.error.inj hcontra
  exact absurd this (by decide)

/-- Claim C6 (amended): on a non-success response whose body parses as JSON,
the raised message is `"Omni API Error: X"` when the body has a string field
`detail = X` with `X` non-empty, and `"Omni API Error: <status text>"` when
the body is a value other than `null` with the `detail` field absent, or when
`detail` is the empty string; when the body is JSON `null`, the property
access `error.detail` itself throws a TypeError, and that error — not an
`"Omni API Error"` one — propagates. -/
theorem fetch_error_message_detail_or_status (resp : HttpResponse) (err : Json)
    (hok : resp.ok = false) (hbody : resp.jsonBody = some err) :
    (∀ X : String, err.getProp "detail" = Except.ok (some (Json.str X)) → X ≠ "" →
        fetchResult resp = Except.error ("Omni API Error: " ++ X))
    ∧ (err.getProp "detail" = Except.ok none →
        fetchResult resp = Except.error ("Omni API Error: " ++ resp.statusText))
    ∧ (err.getProp "detail" = Except.ok (some (Json.str "")) →
        fetchResult resp = Except.error ("Omni API Error: " ++ resp.statusText))
    ∧ (err = Json.null →
        fetchResult resp = Except.error typeErrorMessage) := by
  refine ⟨?_, ?_, ?_, ?_⟩
  · intro X hdet hne
    have hx : X.isEmpty = false := by
      cases hxe : X.isEmpty
      · rfl
      · exact absurd ((String.isEmpty_iff X).mp hxe) hne
    simp [fetchResult, hok, hbody, detailOrStatus, hdet, jsTruthy, jsDisplayOpt, jsDisplay, hx]
  · intro hdet
    simp [fetchResult, hok, hbody, detailOrStatus, hdet, jsTruthy]
  · intro hdet
    have h0 : "".isEmpty = true := rfl
    simp [fetchResult, hok, hbody, detailOrStatus, hdet, jsTruthy, h0]
  · intro hnull
    subst hnull
    simp [fetchResult, hok, hbody, detailOrStatus, Json.getProp]

/-- Witness for the amended C6 on a concrete response with a non-empty
`detail`. -/
theorem fetch_error_message_detail_or_status_witness :
    fetchResult respDetailBoom = Except.error ("Omni API Error: " ++ "boom") :=
  (fetch_error_message_detail_or_status respDetailBoom
      (Json.obj [("detail", Json.str "boom")]) rfl rfl).1 "boom" rfl (by decide)

/-- Claim C7 (confirmed): on a non-success response whose body is not valid
JSON, the request operation still fails — the secondary parse failure
propagates as the generic `SyntaxError`, it is not swallowed into a success
value (and, the model being a total function, the caller is not crashed). -/
theorem fetch_non_json_error_body_propagates (resp : HttpResponse)
    (hok : resp.ok = false) (hbody : resp.jsonBody = none) :
    fetchResult resp = Except.error jsonParseErrorMessage
    ∧ ∀ j : Json, fetchResult resp ≠ Except.ok j := by
  constructor
  · simp [fetchResult, hok, hbody]
  · intro j hcontra
    rw [show fetchResult resp = Except.error jsonParseErrorMessage by
      simp [fetchResult, hok, hbody]] at hcontra
    exact Except.noConfusion hcontra

/-- Witness for C7 on a concrete non-JSON error response. -/
theorem fetch_non_json_error_body_propagates_witness :
    fetchResult respNotJson = Except.error jsonParseErrorMessage :=
  (fetch_non_json_error_body_propagates respNotJson rfl rfl).1

/-- Claim C8 (confirmed): the headers sent by the client are the mandatory
`Authorization: Bearer <token>` and `Content-Type: application/json` entries
merged with the caller-supplied headers, caller entries merged after with
last-write-wins semantics: a key set by the caller resolves to the caller's
last value for it, any other key resolves to its mandatory value (or is
absent). -/
theorem fetch_header_merge_last_write_wins (api : OmniAPI) (endpoint method : String)
    (callerHeaders : List (String × String)) (body : Option Json) (k : String) :
    headerGet (api.fetchRequest endpoint method callerHeaders body).headers k
      = (match lastHeaderValue callerHeaders k with
         | some v => some v
         | none => headerGet (mandatoryHeaders api.token) k)
    ∧ headerGet (mandatoryHeaders api.token) "Authorization"
        = some ("Bearer " ++ api.token)
    ∧ headerGet (mandatoryHeaders api.token) "Content-Type"
        = some "application/json" := by
  refine ⟨?_, rfl, rfl⟩
  show headerGet (buildHeaders api.token callerHeaders) k = _
  exact headerGet_foldl_objSet callerHeaders (mandatoryHeaders api.token) k

/-- Claim C9, counterexample: with the non-empty but non-UUID-shaped target
model id `"x"`, the start button is enabled, and clicking it issues network
requests — the claimed UUID-shape requirement is not enforced and a network
call is made. -/
theorem migration_enabled_without_uuid_check :
    migrationEnabled "dash_123" "x" = true
    ∧ isUuid "x" = false
    ∧ (handleMigration cfgEx "dash_123" "x" netOkEx).requests.length = 2 := by
  refine ⟨by decide, by decide, rfl⟩

/-- Claim C9 (amended): the Idle → Exporting gate checks only that both
identifiers are non-empty (no UUID-shape check); whenever the handler runs,
the first network request issued is the export GET, regardless of the target
model id's shape. -/
theorem migration_gate_nonempty_only (s t : String) (cfg : OmniConfig)
    (net : NetworkOracle) :
    (migrationEnabled s t = true ↔ (s.isEmpty = false ∧ t.isEmpty = false))
    ∧ (handleMigration cfg s t net).requests.head?
        = some (OmniAPI.exportDashboardRequest
            { baseUrl := cfg.source.baseUrl, token := cfg.source.token } s) := by
  constructor
  · simp [migrationEnabled, migrationButtonDisabled]
  · cases hx : net.exportResult with
    | error msg => simp [handleMigration, hx]
    | ok e => cases hi : net.importResult <;> simp [handleMigration, hx, hi]

/-- Helper for claim C10: any single missing setting makes the missing-vars
list non-trivial. -/
theorem missingVars_length_pos (cfg : OmniConfig)
    (h : cfg.source.baseUrl.isEmpty = true ∨ cfg.source.token.isEmpty = true
        ∨ cfg.target.baseUrl.isEmpty = true ∨ cfg.target.token.isEmpty = true) :
    0 < (missingVars cfg).length := by
  by_cases h1 : cfg.source.baseUrl.isEmpty <;>
  by_cases h2 : cfg.source.token.isEmpty <;>
  by_cases h3 : cfg.target.baseUrl.isEmpty <;>
  by_cases h4 : cfg.target.token.isEmpty <;>
  simp_all [missingVars]

/-- Helper for claim C10: a setting's environment-variable name appears in the
missing-vars list exactly when that setting is empty. -/
theorem missingVars_mem_iff (cfg : OmniConfig) :
    (cfg.source.baseUrl.isEmpty = true ↔ "NEXT_PUBLIC_SOURCE_OMNI_URL" ∈ missingVars cfg)
    ∧ (cfg.source.token.isEmpty = true ↔ "SOURCE_OMNI_API_TOKEN" ∈ missingVars cfg)
    ∧ (cfg.target.baseUrl.isEmpty = true ↔ "NEXT_PUBLIC_TARGET_OMNI_URL" ∈ missingVars cfg)
    ∧ (cfg.target.token.isEmpty = true ↔ "TARGET_OMNI_API_TOKEN" ∈ missingVars cfg) := by
  by_cases h1 : cfg.source.baseUrl.isEmpty <;>
  by_cases h2 : cfg.source.token.isEmpty <;>
  by_cases h3 : cfg.target.baseUrl.isEmpty <;>
  by_cases h4 : cfg.target.token.isEmpty <;>
  simp_all [missingVars]

/-- Claim C10 (confirmed): if any of the four configuration settings is empty,
`validateOmniConfig` fails with a message listing exactly the missing settings
(every empty setting's variable name is in the list, and only those), the
component renders the configuration-error panel carrying that message, and
that panel has no migration button, so no migration (hence no network call)
can be started. -/
theorem missing_config_blocks_migration (cfg : OmniConfig) (s t : String)
    (h : cfg.source.baseUrl.isEmpty = true ∨ cfg.source.token.isEmpty = true
        ∨ cfg.target.baseUrl.isEmpty = true ∨ cfg.target.token.isEmpty = true) :
    validateOmniConfig cfg
      = Except.error ("Missing required environment variables: "
          ++ String.intercalate ", " (missingVars cfg))
    ∧ (cfg.source.baseUrl.isEmpty = true ↔ "NEXT_PUBLIC_SOURCE_OMNI_URL" ∈ missingVars cfg)
    ∧ (cfg.source.token.isEmpty = true ↔ "SOURCE_OMNI_API_TOKEN" ∈ missingVars cfg)
    ∧ (cfg.target.baseUrl.isEmpty = true ↔ "NEXT_PUBLIC_TARGET_OMNI_URL" ∈ missingVars cfg)
    ∧ (cfg.target.token.isEmpty = true ↔ "TARGET_OMNI_API_TOKEN" ∈ missingVars cfg)
    ∧ renderDashboardMigration cfg s t
        = RenderedView.configErrorPanel ("Missing required environment variables: "
            ++ String.intercalate ", " (missingVars cfg))
    ∧ viewHasMigrationButton (renderDashboardMigration cfg s t) = false := by
  have hpos := missingVars_length_pos cfg h
  have hmem := missingVars_mem_iff cfg
  have hval : validateOmniConfig cfg
      = Except.error ("Missing required environment variables: "
          ++ String.intercalate ", " (missingVars cfg)) := by
    simp [validateOmniConfig, hpos]
  have hrender : renderDashboardMigration cfg s t
      = RenderedView.configErrorPanel ("Missing required environment variables: "
          ++ String.intercalate ", " (missingVars cfg)) := by
    simp [renderDashboardMigration, hval]
  refine ⟨hval, hmem.1, hmem.2.1, hmem.2.2.1, hmem.2.2.2, hrender, ?_⟩
  rw [hrender]
  rfl

/-- Witness for C10 on a concrete configuration missing the source base URL
and the target token. -/
theorem missing_config_blocks_migration_witness :
    validateOmniConfig cfgMissingEx
      = Except.error ("Missing required environment variables: "
          ++ String.intercalate ", " (missingVars cfgMissingEx))
    ∧ viewHasMigrationButton (renderDashboardMigration cfgMissingEx "dash_123" uuidEx)
        = false := by
  have h := missing_config_blocks_migration cfgMissingEx "dash_123" uuidEx (Or.inl rfl)
  exact ⟨h.1, h.2.2.2.2.2.2⟩
